import Mathlib

/-!
Verification of the subscription lifecycle engine of `bot.py`
(Profisional-l/ctprobot): period clock, payment-option resolver,
subscription ledger activation, promo engine and expiration sweep.

The Python source is shallowly embedded below.  Database rows become
structures, SQL queries over the per-(user, plan) subscription rows become
functions on `List SubRow`, timestamps become local wall-clock date-times
(the configured zone `Europe/Minsk` is a fixed UTC+3 offset with no DST,
so Unix-timestamp order coincides with lexicographic order on the local
wall-clock fields), and fallible operations return sum types.
-/

namespace CtproBot

/-- A local wall-clock date-time.  `bot.py` works with `now_local()`
(`datetime.now(LOCAL_TZ)`) for calendar decisions and with Unix timestamps
(`int(time.time())`, `datetime.timestamp()`) for comparisons; since the
configured zone is a fixed offset, comparing timestamps of two local
date-times is the same as comparing the date-times lexicographically. -/
structure DateTime where
  year : Nat
  month : Nat
  day : Nat
  hour : Nat
  minute : Nat
  second : Nat
deriving Repr, DecidableEq

/-- Strict order on instants: lexicographic on local wall-clock fields
(models `<` on the corresponding Unix timestamps). -/
def DateTime.ltb (a b : DateTime) : Bool :=
  if a.year ≠ b.year then a.year < b.year
  else if a.month ≠ b.month then a.month < b.month
  else if a.day ≠ b.day then a.day < b.day
  else if a.hour ≠ b.hour then a.hour < b.hour
  else if a.minute ≠ b.minute then a.minute < b.minute
  else a.second < b.second

/-- Non-strict order on instants. -/
def DateTime.leb (a b : DateTime) : Bool := !(b.ltb a)

/-- The later of two instants (used to state the spec's "greater of now
and the existing end_ts"). -/
def DateTime.maxDT (a b : DateTime) : DateTime := if a.ltb b then b else a

/-- Values of the `part_paid` column of `subscriptions`
(`'none' | 'first' | 'full'`). -/
inductive PartPaid where
  | none
  | first
  | full
deriving Repr, DecidableEq

/-- Values of the `payment_type` column.  The source strings are
`'full' | 'full_anytime' | 'firstHalf'… `: the first-half split payment is
called `'partial'` in the source; it is named `firstHalf` here. -/
inductive PaymentType where
  | full
  | full_anytime
  | firstHalf
  | second_part
  | second_part_late
  | half_month
  | renewal
deriving Repr, DecidableEq

/-- One row of the `subscriptions` table, restricted to the columns the
lifecycle engine reads or writes.  The rows under consideration are always
those of one fixed (user, plan) pair, so `user_id` and `plan_id` are left
implicit; `start_ts`, `invite_link`, `next_payment_date` and
`last_notification_ts` are not consulted by any verified property and are
omitted. -/
structure SubRow where
  id : Nat
  partPaid : PartPaid
  periodMonth : Nat
  periodYear : Nat
  endTs : DateTime
  active : Bool
  removed : Bool
  paymentType : PaymentType
deriving Repr, DecidableEq

/-- Models `SELECT … FROM subscriptions WHERE user_id=? AND plan_id=? AND active=1
ORDER BY end_ts DESC LIMIT 1` over the rows of the (user, plan) pair:
keep the active rows and pick one with maximal `end_ts` (SQLite leaves the
order of ties unspecified; the first maximal row is kept). -/
def selectActiveSub (subs : List SubRow) : Option SubRow :=
  (subs.filter (·.active)).foldl
    (fun best r =>
      match best with
      | Option.none => some r
      | some b => if b.endTs.ltb r.endTs then some r else some b)
    Option.none

/-- Embeds `get_current_period()`: month and year of `now_local()`. -/
def get_current_period (now : DateTime) : Nat × Nat := (now.month, now.year)

/-- Result values of `get_active_payment_type()`. -/
inductive ActiveType where
  | first
  | second
  | half_month
  | full_anytime
deriving Repr, DecidableEq

/-- Embeds `get_active_payment_type()`: classifies the day of month into the four
payment phases. -/
def get_active_payment_type (day : Nat) : ActiveType :=
  if 1 ≤ day ∧ day ≤ 5 then ActiveType.first
  else if 15 ≤ day ∧ day ≤ 20 then ActiveType.second
  else if day ≥ 21 then ActiveType.half_month
  else ActiveType.full_anytime

/-- Embeds `check_existing_active_subscription(user_id, plan_id)`: fetches the
top active row and classifies it.  The message string is irrelevant to the
verified properties; the function returns the pair
(`has_active_sub`, `sub_info`).  Note that a current-period row with
`part_paid='none'`, and any row whose `end_ts` has passed, yield
`(False, row)`. -/
def check_existing_active_subscription (subs : List SubRow) (now : DateTime) :
    Bool × Option SubRow :=
  match selectActiveSub subs with
  | Option.none => (false, Option.none)
  | some r =>
    if now.ltb r.endTs then
      if r.periodMonth = now.month ∧ r.periodYear = now.year then
        if r.partPaid = PartPaid.full then (true, some r)
        else if r.partPaid = PartPaid.first then (true, some r)
        else (false, some r)
      else (true, some r)
    else (false, some r)

/-- One payment option produced by `get_payment_options` (the `'type'` and
`'price'` fields; the display strings `'text'`/`'description'` are not part
of any verified property). -/
structure PayOption where
  ptype : PaymentType
  price : Nat
deriving Repr, DecidableEq

/-- Embeds `get_payment_options(user_id, plan_id)`.  Inputs: the subscription
rows of the (user, plan) pair, the plan's `price_cents` if the plan row
exists, and the current local time.  `price_cents // 2` is Python floor
division, i.e. `Nat` division here. -/
def get_payment_options (subs : List SubRow) (plan : Option Nat)
    (now : DateTime) : List PayOption :=
  let res := check_existing_active_subscription subs now
  let hasActive := res.1
  let subInfo := res.2
  if hasActive && (match subInfo with
                   | some r => r.partPaid == PartPaid.full
                   | Option.none => false) then []
  else
    match plan with
    | Option.none => []
    | some price_cents =>
      let first_part_price := price_cents / 2
      let second_part_price := first_part_price
      let has_paid_first_part :=
        hasActive && (match subInfo with
                      | some r => r.partPaid == PartPaid.first
                      | Option.none => false)
      let day := now.day
      if day ≥ 21 then
        if has_paid_first_part then
          [⟨PaymentType.second_part_late, second_part_price⟩]
        else
          [⟨PaymentType.half_month, first_part_price⟩]
      else
        match get_active_payment_type day with
        | ActiveType.first =>
          if has_paid_first_part then
            [⟨PaymentType.second_part, second_part_price⟩]
          else
            [⟨PaymentType.full, price_cents⟩,
             ⟨PaymentType.firstHalf, first_part_price⟩]
        | ActiveType.second =>
          if has_paid_first_part then
            [⟨PaymentType.second_part, second_part_price⟩]
          else
            [⟨PaymentType.full, price_cents⟩]
        | _ =>
          if has_paid_first_part then
            [⟨PaymentType.second_part_late, second_part_price⟩]
          else
            [⟨PaymentType.full, price_cents⟩]

/-! ## Activation engine (`activate_subscription`) -/

/-- The columns of a `plans` row consulted by `activate_subscription`. -/
structure Plan where
  price_cents : Nat
  group_id : Option Int
deriving Repr, DecidableEq

/-- Failure outcomes of `activate_subscription`.  In the source every
failure is `return False, <message>`; `unboundLocal` models the
`UnboundLocalError` raised when `payment_type` matches no branch of the
`end_ts` computation (e.g. `'renewal'`) and the undefined `part_paid` /
`end_ts` are then used. -/
inductive ActErr where
  | planNotFound
  | noGroupConfigured
  | credentialIssuanceFailed
  | unboundLocal
deriving Repr, DecidableEq

/-- The month after the given `(pm, py)`, as computed by the source's
`if now.month == 12: next_month = 1; next_year = now.year + 1` pattern. -/
def nextMonth (m y : Nat) : Nat × Nat :=
  if m = 12 then (1, y + 1) else (m + 1, y)

/-- Day 5, 23:59:59 of the month after (m, y):
`LOCAL_TZ.localize(datetime(next_year, next_month, 5, 23, 59, 59))`. -/
def endDay5Next (m y : Nat) : DateTime :=
  ⟨(nextMonth m y).2, (nextMonth m y).1, 5, 23, 59, 59⟩

/-- The `end_ts` / `part_paid` computation of `activate_subscription`
(lines 503-556), by `payment_type`.  `Option.none` models the fall-through
for `payment_type='renewal'` (no branch assigns `end_ts`/`part_paid`,
so their later use raises `UnboundLocalError`). -/
def computeEnd (pt : PaymentType) (now : DateTime) :
    Option (DateTime × PartPaid) :=
  match pt with
  | PaymentType.half_month => some (endDay5Next now.month now.year, PartPaid.full)
  | PaymentType.full => some (endDay5Next now.month now.year, PartPaid.full)
  | PaymentType.full_anytime => some (endDay5Next now.month now.year, PartPaid.full)
  | PaymentType.firstHalf =>
    some (⟨now.year, now.month, 15, 23, 59, 59⟩, PartPaid.first)
  | PaymentType.second_part => some (endDay5Next now.month now.year, PartPaid.full)
  | PaymentType.second_part_late => some (endDay5Next now.month now.year, PartPaid.full)
  | PaymentType.renewal => Option.none

/-- Models `UPDATE subscriptions SET payment_type=?, part_paid=?, end_ts=?,
invite_link=?, active=1, removed=0 WHERE id=?` (both current-period update
branches run this same statement). -/
def updateRowSamePeriod (db : List SubRow) (sid : Nat) (pt : PaymentType)
    (pp : PartPaid) (e : DateTime) : List SubRow :=
  db.map fun r =>
    if r.id = sid then
      { r with paymentType := pt, partPaid := pp, endTs := e,
               active := true, removed := false }
    else r

/-- Models `UPDATE subscriptions SET payment_type=?, part_paid=?,
current_period_month=?, current_period_year=?, end_ts=?, invite_link=?,
active=1, removed=0 WHERE id=?` (the different-period "renewal" branch). -/
def updateRowNewPeriod (db : List SubRow) (sid : Nat) (pt : PaymentType)
    (pp : PartPaid) (cm cy : Nat) (e : DateTime) : List SubRow :=
  db.map fun r =>
    if r.id = sid then
      { r with paymentType := pt, partPaid := pp,
               periodMonth := cm, periodYear := cy, endTs := e,
               active := true, removed := false }
    else r

/-- Embeds `target_group_id = plan_group_id if plan_group_id else group_id`
(a plan's configured group, with the caller's `group_id` as fallback). -/
def resolveTargetGroup (planGroup caller : Option Int) : Option Int :=
  match planGroup with
  | some g => some g
  | Option.none => caller

/-- Embeds `activate_subscription(user_id, plan_id, payment_type, group_id)`.

Inputs: the subscription rows of the (user, plan) pair, the plan row if it
exists, the caller's `group_id` argument, the payment type, the current
local time, the result of `create_chat_invite_link_one_time`
(`Option.none` when the collaborator fails to issue the credential), and a
fresh row id for the insert branch.

Returns the resulting subscription rows together with the outcome: on any
failure the rows are returned unchanged (the source performs no
`cursor.execute` on `subscriptions` before its early `return False`
paths).  Steps, in source order: plan lookup; target-group resolution;
best-effort unban (no ledger effect; omitted); the active-row lookup and
the `end_ts`/`part_paid` computation; invite-link issuance (fatal on
failure, and reached before the undefined-variable crash of unhandled
payment types); then the single UPDATE or INSERT and the commit.

The inactive-row lookup of lines 481-496 only reassigns the local
`sub_id`, which line 567 overwrites before it is ever used, and the
`existing_end_ts` it loads does not feed any `end_ts` branch (both arms of
the `full`/`full_anytime` conditional are identical), so it has no
observable effect on the committed state. -/
def activate_subscription (db : List SubRow) (plan : Option Plan)
    (group_id : Option Int) (pt : PaymentType) (now : DateTime)
    (invite : Option String) (newId : Nat) :
    List SubRow × Except ActErr String :=
  match plan with
  | Option.none => (db, Except.error ActErr.planNotFound)
  | some p =>
    match resolveTargetGroup p.group_id group_id with
    | Option.none => (db, Except.error ActErr.noGroupConfigured)
    | some _ =>
      match invite with
      | Option.none => (db, Except.error ActErr.credentialIssuanceFailed)
      | some link =>
        match computeEnd pt now with
        | Option.none => (db, Except.error ActErr.unboundLocal)
        | some (end_ts, part_paid) =>
          match selectActiveSub db with
          | some ex =>
            if ex.periodMonth = now.month ∧ ex.periodYear = now.year then
              (updateRowSamePeriod db ex.id pt part_paid end_ts,
               Except.ok link)
            else
              (updateRowNewPeriod db ex.id pt part_paid
                 now.month now.year end_ts,
               Except.ok link)
          | Option.none =>
            (db ++ [⟨newId, part_paid, now.month, now.year, end_ts,
                     true, false, pt⟩],
             Except.ok link)

/-! ## Period ordering (used to state ledger reachability) -/

/-- Strict order on billing periods (month, year): lexicographic on
(year, month). -/
def periodLtb (m1 y1 m2 y2 : Nat) : Bool :=
  y1 < y2 || (y1 == y2 && m1 < m2)

/-- Non-strict order on billing periods. -/
def periodLeb (m1 y1 m2 y2 : Nat) : Bool :=
  periodLtb m1 y1 m2 y2 || (y1 == y2 && m1 == m2)

/-! ## Promo engine -/

/-- One row of the `promo_codes` table. -/
structure PromoRow where
  id : Nat
  code : String
  discount_percent : Option Int
  discount_fixed_cents : Option Int
  is_active : Bool
  used_count : Nat
  max_uses : Option Nat
  expires_ts : Option Int
deriving Repr, DecidableEq

/-- Python truthiness of a nullable integer column: `None` and `0` are
falsy. -/
def truthyInt : Option Int → Bool
  | Option.none => false
  | some n => n != 0

/-- Python truthiness of a nullable non-negative counter column. -/
def truthyNat : Option Nat → Bool
  | Option.none => false
  | some n => n != 0

/-- Embeds `apply_promo_code(price_cents, promo_data)`, returning the new price
(the accompanying message string is irrelevant to the verified
properties).  `int(price_cents * discount_percent / 100)` in the source is
float division followed by `int()` truncation; on the integer magnitudes
where the float quotient is exact this is truncating integer division,
modelled by `Int.tdiv` (and equal to floor division on the non-negative
inputs of the claims).  Note the `elif`: a percent discount takes priority
and the fixed branch runs only when `discount_percent` is `NULL` or 0;
when both are falsy the price is returned unchanged. -/
def apply_promo_code (price_cents : Int) (promo : PromoRow) : Int :=
  if truthyInt promo.discount_percent then
    max 0 (price_cents - (price_cents * promo.discount_percent.getD 0).tdiv 100)
  else if truthyInt promo.discount_fixed_cents then
    max 0 (price_cents - promo.discount_fixed_cents.getD 0)
  else
    price_cents

/-- Outcomes of `can_use_promo_code(promo_id, user_id)`. -/
inductive PromoCheck where
  | ok
  | alreadyUsed
  | notFound
  | inactive
  | exhausted
  | expired
deriving Repr, DecidableEq

/-- The `promo_usage` table, restricted to its (promo_id, user_id)
columns.  The table has no UNIQUE constraint — its schema is
`id INTEGER PRIMARY KEY AUTOINCREMENT, promo_id INTEGER, user_id INTEGER,
used_ts INTEGER` with only a foreign key on `promo_id` — so it is a plain
list of pairs. -/
def PromoUsage := List (Nat × Nat)

/-- Embeds `can_use_promo_code(promo_id, user_id)`: prior-usage check, then
existence, active flag, `used_count >= max_uses` (when `max_uses` is
truthy) and expiry (when `expires_ts` is truthy), in source order. -/
def can_use_promo_code (usage : List (Nat × Nat)) (promo : Option PromoRow)
    (promo_id user_id : Nat) (now_ts : Int) : PromoCheck :=
  if usage.contains (promo_id, user_id) then PromoCheck.alreadyUsed
  else
    match promo with
    | Option.none => PromoCheck.notFound
    | some pr =>
      if !pr.is_active then PromoCheck.inactive
      else if truthyNat pr.max_uses && pr.max_uses.getD 0 ≤ pr.used_count then
        PromoCheck.exhausted
      else if truthyInt pr.expires_ts && pr.expires_ts.getD 0 < now_ts then
        PromoCheck.expired
      else PromoCheck.ok

/-- Models `INSERT INTO promo_usage (promo_id, user_id, used_ts) VALUES (?,?,?)`:
run unconditionally by both completion paths (the `successful_payment`
handlers and the manual-approval handler); since the table has no unique
constraint the insert always appends a fresh row. -/
def record_promo_usage (usage : List (Nat × Nat)) (promo_id user_id : Nat) :
    List (Nat × Nat) :=
  usage ++ [(promo_id, user_id)]

/-- Number of usage rows recorded for a given (promo, user) pair. -/
def countUsage (usage : List (Nat × Nat)) (promo_id user_id : Nat) : Nat :=
  (usage.filter (fun pu => pu == (promo_id, user_id))).length

/-! ## Expiration sweeper: the day-21, 00:00 action -/

/-- The SQL text executed by `check_expirations_loop` on day 21 at 00:00
(source lines 4257-4266; leading indentation trimmed, quotes written as
escapes), one definition per line.  Line 7 contains a Python-style `#`
comment inside the SQL string. -/
def day21Sql1 : String :=
  "SELECT s.id, s.user_id, s.group_id, s.plan_id, p.title, u.username\n"

/-- Line 2 of the day-21 sweep SELECT. -/
def day21Sql2 : String := "FROM subscriptions s\n"

/-- Line 3 of the day-21 sweep SELECT. -/
def day21Sql3 : String := "JOIN plans p ON s.plan_id = p.id\n"

/-- Line 4 of the day-21 sweep SELECT. -/
def day21Sql4 : String := "JOIN users u ON s.user_id = u.user_id\n"

/-- Line 5 of the day-21 sweep SELECT. -/
def day21Sql5 : String := "WHERE s.active = 1 \n"

/-- Line 6 of the day-21 sweep SELECT. -/
def day21Sql6 : String := "AND s.payment_type = \x27partial\x27 \n"

/-- Line 7 of the day-21 sweep SELECT — the line with the `#` comment. -/
def day21Sql7 : String :=
  "AND s.part_paid = \x27first\x27  # Только первую часть оплатили\n"

/-- Line 8 of the day-21 sweep SELECT. -/
def day21Sql8 : String :=
  "AND s.current_period_month = ? AND s.current_period_year = ?"

/-- The full SQL text of the day-21 sweep SELECT. -/
def day21SweepQuery : String :=
  day21Sql1 ++ day21Sql2 ++ day21Sql3 ++ day21Sql4 ++ day21Sql5 ++
    day21Sql6 ++ day21Sql7 ++ day21Sql8

/-- One step of the scan for an unquoted `#`: the state is (inside a
single-quoted SQL string literal, a `#` has been seen outside one). -/
def hashStep (st : Bool × Bool) (c : Char) : Bool × Bool :=
  if c = '\x27' then (!st.1, st.2)
  else if !st.1 && c = '#' then (st.1, true)
  else st

/-- Whether SQLite's tokenizer rejects the statement with
`OperationalError: unrecognized token: "#"`: true when a `#` occurs
outside single-quoted string literals (`#` is not a comment marker or any
other token in SQLite's SQL dialect; its line comments are `--` and its
block comments are C-style). -/
def hasUnrecognizedHash (s : String) : Bool :=
  (s.toList.foldl hashStep (false, false)).2

/-- The WHERE clause of the day-21 sweep, read semantically: active rows
with `payment_type='partial'`, `part_paid='first'` and the current period.
(The JOINs on `plans` and `users` are assumed to resolve; a subscription
whose user row is absent would be skipped even by the intended query.) -/
def day21MatchRow (r : SubRow) (cm cy : Nat) : Bool :=
  r.active && r.paymentType == PaymentType.firstHalf &&
    r.partPaid == PartPaid.first && r.periodMonth == cm && r.periodYear == cy

/-- What the day-21 sweep's loop body does to the matching rows:
`UPDATE subscriptions SET active = 0, removed = 1 WHERE id = ?` for each
(the ban request and the notification have no ledger effect). -/
def day21Revoke (db : List SubRow) (cm cy : Nat) : List SubRow :=
  db.map fun r =>
    if day21MatchRow r cm cy then { r with active := false, removed := true }
    else r

/-- The observable effect of the day-21, 00:00 sweep action on the
subscription rows: if the SELECT's text is rejected by SQLite the
`cursor.execute` raises, the loop's blanket `except` logs it, and no row
is touched; otherwise the fetched rows are revoked one by one. -/
def day21Sweep (db : List SubRow) (cm cy : Nat) : List SubRow :=
  if hasUnrecognizedHash day21SweepQuery then db
  else day21Revoke db cm cy

/-! ## Helper lemmas -/

set_option maxRecDepth 8000 in
/-- SQLite rejects the day-21 sweep SELECT: its text contains a `#`
outside string literals (the Python comment on the `part_paid` line). -/
lemma day21_query_rejected : hasUnrecognizedHash day21SweepQuery = true := by
  have tl : day21SweepQuery.toList =
      day21Sql1.toList ++ day21Sql2.toList ++ day21Sql3.toList ++
        day21Sql4.toList ++ day21Sql5.toList ++ day21Sql6.toList ++
        day21Sql7.toList ++ day21Sql8.toList := by
    simp [day21SweepQuery, String.toList]
  unfold hasUnrecognizedHash
  rw [tl, List.foldl_append, List.foldl_append, List.foldl_append,
      List.foldl_append, List.foldl_append, List.foldl_append,
      List.foldl_append]
  rw [show List.foldl hashStep (false, false) day21Sql1.toList =
        (false, false) from by decide]
  rw [show List.foldl hashStep (false, false) day21Sql2.toList =
        (false, false) from by decide]
  rw [show List.foldl hashStep (false, false) day21Sql3.toList =
        (false, false) from by decide]
  rw [show List.foldl hashStep (false, false) day21Sql4.toList =
        (false, false) from by decide]
  rw [show List.foldl hashStep (false, false) day21Sql5.toList =
        (false, false) from by decide]
  rw [show List.foldl hashStep (false, false) day21Sql6.toList =
        (false, false) from by decide]
  rw [show List.foldl hashStep (false, false) day21Sql7.toList =
        (false, true) from by decide]
  rw [show List.foldl hashStep (false, true) day21Sql8.toList =
        (false, true) from by decide]

/-- The max-`end_ts` fold of `selectActiveSub` only ever returns the
accumulator or an element of the list. -/
lemma foldlPick_mem (l : List SubRow) (acc : Option SubRow) (r : SubRow)
    (h : l.foldl
      (fun best x =>
        match best with
        | Option.none => some x
        | some b => if b.endTs.ltb x.endTs then some x else some b) acc =
      some r) :
    acc = some r ∨ r ∈ l := by
  induction l generalizing acc with
  | nil => exact Or.inl h
  | cons x xs ih =>
    simp only [List.foldl_cons] at h
    rcases ih _ h with hacc | hmem
    · cases acc with
      | none =>
        simp only [Option.some.injEq] at hacc
        exact Or.inr (by simp [hacc])
      | some b =>
        by_cases hb : b.endTs.ltb x.endTs
        · simp [hb] at hacc
          exact Or.inr (by simp [hacc])
        · simp [hb] at hacc
          exact Or.inl (by simp [hacc])
    · exact Or.inr (List.mem_cons_of_mem _ hmem)

/-- The row returned by the active-row SELECT is one of the rows. -/
lemma selectActiveSub_mem {subs : List SubRow} {r : SubRow}
    (h : selectActiveSub subs = some r) : r ∈ subs := by
  unfold selectActiveSub at h
  rcases foldlPick_mem _ _ _ h with h' | h'
  · exact absurd h' (by simp)
  · exact List.mem_of_mem_filter h'

/-- Any instant is strictly before day 5, 23:59:59 of the following
month. -/
lemma ltb_endDay5Next (t : DateTime) :
    t.ltb (endDay5Next t.month t.year) = true := by
  unfold endDay5Next nextMonth DateTime.ltb
  by_cases h : t.month = 12 <;> simp [h]

/-! ## Claims about the payment-option resolver -/

/-- C2.  For every phase (every current local time) and every plan, if the
active subscription row for the (user, plan) pair has `part_paid='full'`
for the current period, then `get_payment_options` returns the empty list.
The hypothesis `hend` records the shape `activate_subscription` gives
every `part_paid='full'` row it writes — `end_ts` is day 5, 23:59:59 of
the month after the period the row is credited for — which is what makes
the row's `end_ts > now` check succeed throughout its period. -/
theorem claim_C2_full_paid_no_options (subs : List SubRow) (now : DateTime)
    (plan : Option Nat) (r : SubRow)
    (hsel : selectActiveSub subs = some r)
    (hfull : r.partPaid = PartPaid.full)
    (hm : r.periodMonth = now.month) (hy : r.periodYear = now.year)
    (hend : r.endTs = endDay5Next r.periodMonth r.periodYear) :
    get_payment_options subs plan now = [] := by
  have hlt : now.ltb r.endTs = true := by
    rw [hend, hm, hy]; exact ltb_endDay5Next now
  unfold get_payment_options check_existing_active_subscription
  rw [hsel]
  simp [hlt, hm, hy, hfull]

/-- Witness for C2 at a concrete state: a fully-paid May 2025 row
suppresses all options on 17 May 2025. -/
theorem claim_C2_witness :
    get_payment_options
      [⟨2, PartPaid.full, 5, 2025, ⟨2025, 6, 5, 23, 59, 59⟩, true, false,
        PaymentType.full⟩]
      (some 1000) ⟨2025, 5, 17, 10, 0, 0⟩ = [] :=
  claim_C2_full_paid_no_options _ _ _ _ rfl rfl rfl rfl rfl

/-- C10.  A still-running fully-paid row of a *different* period also
suppresses every purchase option: `check_existing_active_subscription`
reports it as active (the different-period branch returns the row for any
`part_paid`), and the resolver's first guard sees `part_paid='full'` and
returns no options. -/
theorem claim_C10_stale_full_row_blocks_options (subs : List SubRow)
    (now : DateTime) (plan : Option Nat) (r : SubRow)
    (hsel : selectActiveSub subs = some r)
    (hfull : r.partPaid = PartPaid.full)
    (hdiff : ¬(r.periodMonth = now.month ∧ r.periodYear = now.year))
    (hfut : now.ltb r.endTs = true) :
    get_payment_options subs plan now = [] := by
  unfold get_payment_options check_existing_active_subscription
  rw [hsel]
  simp [hfut, hdiff, hfull]

/-- Witness for C10: an April 2025 fully-paid row whose `end_ts`
(5 May, 23:59:59) has not yet passed blocks all options on 3 May 2025. -/
theorem claim_C10_witness :
    get_payment_options
      [⟨2, PartPaid.full, 4, 2025, ⟨2025, 5, 5, 23, 59, 59⟩, true, false,
        PaymentType.full⟩]
      (some 1000) ⟨2025, 5, 3, 10, 0, 0⟩ = [] :=
  claim_C10_stale_full_row_blocks_options _ _ _ _ rfl rfl (by decide) rfl

/-- The second component of `check_existing_active_subscription`'s result
is always the row returned by the active-row SELECT. -/
lemma check_snd (subs : List SubRow) (now : DateTime) :
    (check_existing_active_subscription subs now).2 = selectActiveSub subs := by
  unfold check_existing_active_subscription
  cases selectActiveSub subs with
  | none => rfl
  | some r =>
    dsimp only
    split
    · split
      · split
        · rfl
        · split <;> rfl
      · rfl
    · rfl

/-- C3.  With no prior payment state for the pair — no active row, or an
active row whose `part_paid` is `'none'` — the resolver offers, by phase:
days 1-5 exactly full price then the first half, in that order; days 6-14
and days 15-20 exactly one full-price option; days 21 and later exactly
the half-month option at `price / 2` (Python `//` floor division). -/
theorem claim_C3_no_prior_payment_options (subs : List SubRow)
    (now : DateTime) (P : Nat)
    (hnone : ∀ r, selectActiveSub subs = some r →
      r.partPaid = PartPaid.none) :
    (1 ≤ now.day ∧ now.day ≤ 5 →
      get_payment_options subs (some P) now =
        [⟨PaymentType.full, P⟩, ⟨PaymentType.firstHalf, P / 2⟩]) ∧
    (6 ≤ now.day ∧ now.day ≤ 14 →
      get_payment_options subs (some P) now = [⟨PaymentType.full, P⟩]) ∧
    (15 ≤ now.day ∧ now.day ≤ 20 →
      get_payment_options subs (some P) now = [⟨PaymentType.full, P⟩]) ∧
    (21 ≤ now.day →
      get_payment_options subs (some P) now =
        [⟨PaymentType.half_month, P / 2⟩]) := by
  have hsnd := check_snd subs now
  have hfullb : ((check_existing_active_subscription subs now).1 &&
      (match (check_existing_active_subscription subs now).2 with
       | some r => r.partPaid == PartPaid.full
       | Option.none => false)) = false := by
    rw [hsnd]
    cases hsel : selectActiveSub subs with
    | none => simp
    | some r => simp [hnone r hsel]
  have hfirstb : ((check_existing_active_subscription subs now).1 &&
      (match (check_existing_active_subscription subs now).2 with
       | some r => r.partPaid == PartPaid.first
       | Option.none => false)) = false := by
    rw [hsnd]
    cases hsel : selectActiveSub subs with
    | none => simp
    | some r => simp [hnone r hsel]
  simp only [get_payment_options]
  rw [hfullb, hfirstb]
  refine ⟨?_, ?_, ?_, ?_⟩ <;> intro hd
  · rw [if_neg (by omega : ¬ now.day ≥ 21)]
    have hat : get_active_payment_type now.day = ActiveType.first := by
      unfold get_active_payment_type
      rw [if_pos (by omega)]
    rw [hat]
    simp
  · rw [if_neg (by omega : ¬ now.day ≥ 21)]
    have hat : get_active_payment_type now.day = ActiveType.full_anytime := by
      unfold get_active_payment_type
      rw [if_neg (by omega), if_neg (by omega), if_neg (by omega)]
    rw [hat]
    simp
  · rw [if_neg (by omega : ¬ now.day ≥ 21)]
    have hat : get_active_payment_type now.day = ActiveType.second := by
      unfold get_active_payment_type
      rw [if_neg (by omega), if_pos (by omega)]
    rw [hat]
    simp
  · rw [if_pos (by omega : now.day ≥ 21)]
    simp

/-- Witness for C3 at concrete states: no rows at all, price 1000, on the
3rd, 8th, 17th and 25th of May 2025. -/
theorem claim_C3_witness :
    (get_payment_options [] (some 1000) ⟨2025, 5, 3, 10, 0, 0⟩ =
      [⟨PaymentType.full, 1000⟩, ⟨PaymentType.firstHalf, 500⟩]) ∧
    (get_payment_options [] (some 1000) ⟨2025, 5, 8, 10, 0, 0⟩ =
      [⟨PaymentType.full, 1000⟩]) ∧
    (get_payment_options [] (some 1000) ⟨2025, 5, 17, 10, 0, 0⟩ =
      [⟨PaymentType.full, 1000⟩]) ∧
    (get_payment_options [] (some 1000) ⟨2025, 5, 25, 10, 0, 0⟩ =
      [⟨PaymentType.half_month, 500⟩]) :=
  ⟨(claim_C3_no_prior_payment_options [] ⟨2025, 5, 3, 10, 0, 0⟩ 1000
      (by intro r hr; cases hr)).1 (by decide),
   (claim_C3_no_prior_payment_options [] ⟨2025, 5, 8, 10, 0, 0⟩ 1000
      (by intro r hr; cases hr)).2.1 (by decide),
   (claim_C3_no_prior_payment_options [] ⟨2025, 5, 17, 10, 0, 0⟩ 1000
      (by intro r hr; cases hr)).2.2.1 (by decide),
   (claim_C3_no_prior_payment_options [] ⟨2025, 5, 25, 10, 0, 0⟩ 1000
      (by intro r hr; cases hr)).2.2.2 (by decide)⟩

/-- The ledger state backing claim C1's failing input: the row
`activate_subscription` writes for a first-half (`'partial'`) payment made
in May 2025 — `part_paid='first'`, period (5, 2025), `end_ts` =
15 May 2025, 23:59:59. -/
def c1Row : SubRow :=
  ⟨1, PartPaid.first, 5, 2025, ⟨2025, 5, 15, 23, 59, 59⟩, true, false,
   PaymentType.firstHalf⟩

/-- C1 fails on the code (code bug).  On day 17 — inside the second
window — with the current-period `part_paid='first'` row exactly as the
code itself creates it (first conjunct), the resolver returns the
full-price option `[{full, 1000}]` instead of the claimed
`[{second_part, 500}]`: the row's `end_ts` (day 15) has passed, so
`check_existing_active_subscription` reports no active subscription and
the `part_paid='first'` state is ignored, contradicting the source's own
comment "Если есть первая часть - НЕ показываем полную оплату!" and its
"Вторая часть оплачивается 15-20 числа" descriptions. -/
theorem claim_C1_day17_full_price_offered :
    computeEnd PaymentType.firstHalf ⟨2025, 5, 3, 10, 0, 0⟩ =
      some (c1Row.endTs, c1Row.partPaid) ∧
    c1Row.partPaid = PartPaid.first ∧
    c1Row.periodMonth = 5 ∧ c1Row.periodYear = 2025 ∧ c1Row.active = true ∧
    get_payment_options [c1Row] (some 1000) ⟨2025, 5, 17, 10, 0, 0⟩ =
      [⟨PaymentType.full, 1000⟩] := by
  decide

/-- The row an update branch rewrites stays in the table, with the new
field values (same-period branch). -/
lemma mem_updateRowSamePeriod {db : List SubRow} {ex : SubRow}
    (hmem : ex ∈ db) (pt : PaymentType) (pp : PartPaid) (e : DateTime) :
    ({ ex with paymentType := pt, partPaid := pp, endTs := e,
               active := true, removed := false } : SubRow) ∈
      updateRowSamePeriod db ex.id pt pp e := by
  unfold updateRowSamePeriod
  have := List.mem_map_of_mem
    (fun r : SubRow =>
      if r.id = ex.id then
        { r with paymentType := pt, partPaid := pp, endTs := e,
                 active := true, removed := false }
      else r) hmem
  simpa using this

/-- The row the renewal branch rewrites stays in the table, with the new
field values (different-period branch). -/
lemma mem_updateRowNewPeriod {db : List SubRow} {ex : SubRow}
    (hmem : ex ∈ db) (pt : PaymentType) (pp : PartPaid) (cm cy : Nat)
    (e : DateTime) :
    ({ ex with paymentType := pt, partPaid := pp,
               periodMonth := cm, periodYear := cy, endTs := e,
               active := true, removed := false } : SubRow) ∈
      updateRowNewPeriod db ex.id pt pp cm cy e := by
  unfold updateRowNewPeriod
  have := List.mem_map_of_mem
    (fun r : SubRow =>
      if r.id = ex.id then
        { r with paymentType := pt, partPaid := pp,
                 periodMonth := cm, periodYear := cy, endTs := e,
                 active := true, removed := false }
      else r) hmem
  simpa using this

/-- Every successful `activate_subscription` call commits a row carrying
exactly the `end_ts` / `part_paid` pair of `computeEnd`, the requested
`payment_type`, and `active=1, removed=0`. -/
lemma activate_commit (db : List SubRow) (plan : Option Plan)
    (gid : Option Int) (pt : PaymentType) (now : DateTime)
    (invite : Option String) (nid : Nat) (db' : List SubRow) (link : String)
    (h : activate_subscription db plan gid pt now invite nid =
      (db', Except.ok link)) :
    ∃ e pp, computeEnd pt now = some (e, pp) ∧
      ∃ r, r ∈ db' ∧ r.active = true ∧ r.removed = false ∧
        r.paymentType = pt ∧ r.partPaid = pp ∧ r.endTs = e := by
  unfold activate_subscription at h
  cases plan with
  | none => simp at h
  | some p =>
    dsimp only at h
    cases hg : resolveTargetGroup p.group_id gid with
    | none => rw [hg] at h; simp at h
    | some g =>
      rw [hg] at h
      dsimp only at h
      cases invite with
      | none => simp at h
      | some link0 =>
        dsimp only at h
        cases hce : computeEnd pt now with
        | none => rw [hce] at h; simp at h
        | some epp =>
          obtain ⟨e, pp⟩ := epp
          rw [hce] at h
          dsimp only at h
          refine ⟨e, pp, rfl, ?_⟩
          cases hsel : selectActiveSub db with
          | none =>
            rw [hsel] at h
            simp only [Prod.mk.injEq] at h
            obtain ⟨hdb, hlink⟩ := h
            subst hdb
            exact ⟨_, List.mem_append_right db (List.mem_singleton.mpr rfl),
              rfl, rfl, rfl, rfl, rfl⟩
          | some ex =>
            rw [hsel] at h
            dsimp only at h
            have hmem := selectActiveSub_mem hsel
            by_cases hper : ex.periodMonth = now.month ∧
                ex.periodYear = now.year
            · rw [if_pos hper] at h
              simp only [Prod.mk.injEq] at h
              obtain ⟨hdb, hlink⟩ := h
              subst hdb
              exact ⟨_, mem_updateRowSamePeriod hmem pt pp e,
                rfl, rfl, rfl, rfl, rfl⟩
            · rw [if_neg hper] at h
              simp only [Prod.mk.injEq] at h
              obtain ⟨hdb, hlink⟩ := h
              subst hdb
              exact ⟨_, mem_updateRowNewPeriod hmem pt pp
                now.month now.year e, rfl, rfl, rfl, rfl, rfl⟩

/-- C4.  Every successful activation commits a row with: for
`payment_type='partial'` (`firstHalf`), `end_ts` = day 15 of the current
month at 23:59:59 and `part_paid='first'`; for any of `full`,
`full_anytime`, `half_month`, `second_part`, `second_part_late`,
`end_ts` = day 5 of the next calendar month at 23:59:59 and
`part_paid='full'`. -/
theorem claim_C4_committed_row_end_ts (db : List SubRow)
    (plan : Option Plan) (gid : Option Int) (pt : PaymentType)
    (now : DateTime) (invite : Option String) (nid : Nat)
    (db' : List SubRow) (link : String)
    (h : activate_subscription db plan gid pt now invite nid =
      (db', Except.ok link)) :
    ∃ r, r ∈ db' ∧ r.active = true ∧ r.removed = false ∧
      r.paymentType = pt ∧
      (pt = PaymentType.firstHalf →
        r.endTs = ⟨now.year, now.month, 15, 23, 59, 59⟩ ∧
        r.partPaid = PartPaid.first) ∧
      ((pt = PaymentType.full ∨ pt = PaymentType.full_anytime ∨
        pt = PaymentType.half_month ∨ pt = PaymentType.second_part ∨
        pt = PaymentType.second_part_late) →
        r.endTs = endDay5Next now.month now.year ∧
        r.partPaid = PartPaid.full) := by
  obtain ⟨e, pp, hce, r, hr, hact, hrem, hptype, hpp, hend⟩ :=
    activate_commit db plan gid pt now invite nid db' link h
  refine ⟨r, hr, hact, hrem, hptype, ?_, ?_⟩
  · intro hpt
    subst hpt
    simp only [computeEnd, Option.some.injEq, Prod.mk.injEq] at hce
    exact ⟨hend.trans hce.1.symm, hpp.trans hce.2.symm⟩
  · intro hdisj
    rcases hdisj with hpt | hpt | hpt | hpt | hpt <;>
      · subst hpt
        simp only [computeEnd, Option.some.injEq, Prod.mk.injEq] at hce
        exact ⟨hend.trans hce.1.symm, hpp.trans hce.2.symm⟩

/-- Witness for C4: a full payment on 3 May 2025 into an empty ledger
commits the single row with `end_ts` 5 June 2025, 23:59:59 and
`part_paid='full'`. -/
theorem claim_C4_witness :
    ∃ r, r ∈ ([⟨9, PartPaid.full, 5, 2025, ⟨2025, 6, 5, 23, 59, 59⟩, true,
        false, PaymentType.full⟩] : List SubRow) ∧
      r.active = true ∧ r.removed = false ∧
      r.paymentType = PaymentType.full ∧
      (PaymentType.full = PaymentType.firstHalf →
        r.endTs = ⟨2025, 5, 15, 23, 59, 59⟩ ∧
        r.partPaid = PartPaid.first) ∧
      ((PaymentType.full = PaymentType.full ∨
        PaymentType.full = PaymentType.full_anytime ∨
        PaymentType.full = PaymentType.half_month ∨
        PaymentType.full = PaymentType.second_part ∨
        PaymentType.full = PaymentType.second_part_late) →
        r.endTs = endDay5Next 5 2025 ∧ r.partPaid = PartPaid.full) :=
  claim_C4_committed_row_end_ts [] (some ⟨1000, some 5⟩) Option.none
    PaymentType.full ⟨2025, 5, 3, 10, 0, 0⟩ (some "L") 9 _ "L" rfl

/-- An instant strictly before day 5, 23:59:59 of a month lies in that
month or an earlier one. -/
lemma ltb_day5_period_le (t : DateTime) (nm ny : Nat)
    (h : t.ltb ⟨ny, nm, 5, 23, 59, 59⟩ = true) :
    periodLeb t.month t.year nm ny = true := by
  unfold DateTime.ltb at h
  dsimp only at h
  unfold periodLeb periodLtb
  simp only [Bool.or_eq_true, Bool.and_eq_true, decide_eq_true_eq,
    beq_iff_eq]
  split_ifs at h <;> simp only [decide_eq_true_eq] at h <;> omega

/-- A period strictly between `(pm, py)` and its successor month does not
exist: a valid period that is at most the successor and not `(pm, py)`
itself is exactly the successor. -/
lemma period_squeeze (pm py m y : Nat) (hm1 : 1 ≤ m) (hm2 : m ≤ 12)
    (hdiff : ¬(pm = m ∧ py = y))
    (hpast : periodLeb pm py m y = true)
    (hupper : periodLeb m y (nextMonth pm py).1 (nextMonth pm py).2 = true) :
    m = (nextMonth pm py).1 ∧ y = (nextMonth pm py).2 := by
  unfold periodLeb periodLtb at hpast hupper
  unfold nextMonth at hupper ⊢
  by_cases h12 : pm = 12 <;>
    simp only [h12, if_true, if_false, reduceIte] at hupper ⊢ <;>
    simp only [Bool.or_eq_true, Bool.and_eq_true, decide_eq_true_eq,
      beq_iff_eq] at hpast hupper <;>
    omega

/-- The function `computeEnd` depends only on the month and year of the given
instant. -/
lemma computeEnd_congr (pt : PaymentType) (a b : DateTime)
    (hm : a.month = b.month) (hy : a.year = b.year) :
    computeEnd pt a = computeEnd pt b := by
  cases pt <;> simp [computeEnd, endDay5Next, nextMonth, hm, hy]

/-- Day 5, 23:59:59 is before day 15, 23:59:59 of the same month. -/
lemma leb_day5_15 (y m : Nat) :
    (DateTime.mk y m 5 23 59 59).leb ⟨y, m, 15, 23, 59, 59⟩ = true := by
  simp [DateTime.leb, DateTime.ltb]

/-- Day 5, 23:59:59 of a month is before day 5, 23:59:59 of the next
month. -/
lemma leb_day5_next (y m : Nat) :
    (DateTime.mk y m 5 23 59 59).leb (endDay5Next m y) = true := by
  unfold endDay5Next nextMonth DateTime.leb DateTime.ltb
  by_cases h12 : m = 12 <;> simp [h12]

/-- Whatever `computeEnd` produces is at or after day 5, 23:59:59 of the
current month. -/
lemma day5_leb_computeEnd (pt : PaymentType) (now : DateTime)
    (e : DateTime) (pp : PartPaid)
    (hce : computeEnd pt now = some (e, pp)) :
    (DateTime.mk now.year now.month 5 23 59 59).leb e = true := by
  cases pt <;>
    simp only [computeEnd, Option.some.injEq, Prod.mk.injEq] at hce <;>
    obtain ⟨he, hpp⟩ := hce <;>
    rw [← he] <;>
    first
    | exact leb_day5_15 _ _
    | exact leb_day5_next _ _

/-- A successful activation that hits an active row of a different period
commits exactly that row, updated in place with the current period and
the freshly computed `end_ts` / `part_paid`. -/
lemma activate_commit_renewal (db : List SubRow) (plan : Option Plan)
    (gid : Option Int) (pt : PaymentType) (now : DateTime)
    (invite : Option String) (nid : Nat) (db' : List SubRow) (link : String)
    (ex : SubRow)
    (hsel : selectActiveSub db = some ex)
    (hdiff : ¬(ex.periodMonth = now.month ∧ ex.periodYear = now.year))
    (h : activate_subscription db plan gid pt now invite nid =
      (db', Except.ok link)) :
    ∃ e pp, computeEnd pt now = some (e, pp) ∧
      ({ ex with paymentType := pt, partPaid := pp,
                 periodMonth := now.month, periodYear := now.year,
                 endTs := e, active := true, removed := false } : SubRow) ∈
        db' := by
  unfold activate_subscription at h
  cases plan with
  | none => simp at h
  | some p =>
    dsimp only at h
    cases hg : resolveTargetGroup p.group_id gid with
    | none => rw [hg] at h; simp at h
    | some g =>
      rw [hg] at h
      dsimp only at h
      cases invite with
      | none => simp at h
      | some link0 =>
        dsimp only at h
        cases hce : computeEnd pt now with
        | none => rw [hce] at h; simp at h
        | some epp =>
          obtain ⟨e, pp⟩ := epp
          rw [hce] at h
          dsimp only at h
          rw [hsel] at h
          dsimp only at h
          rw [if_neg hdiff] at h
          simp only [Prod.mk.injEq] at h
          obtain ⟨hdb, hlink⟩ := h
          subst hdb
          exact ⟨e, pp, rfl,
            mem_updateRowNewPeriod (selectActiveSub_mem hsel) pt pp
              now.month now.year e⟩

/-- C5.  A renewal — an activation hitting an active row of a different
(necessarily earlier) period whose `end_ts` is still in the future — never
shortens the remaining access, and its `end_ts` computation agrees with
one based on the greater of "now" and the existing `end_ts`.  Hypotheses
`hshape` (the row's `end_ts` is day 5, 23:59:59 of the month after its
period, the shape `activate_subscription` gives every `part_paid='full'`
row) and `hpast` (the row's period is not later than the current one)
record ledger reachability; `hm1`/`hm2` record calendar validity of the
current month.  Under them the current period is exactly the month after
the row's period, so the committed row's `end_ts` is at or after the old
one, and `computeEnd` — which reads only the month and year of its
instant — gives the same result at "now" and at
`max(now, existing end_ts)`. -/
theorem claim_C5_renewal_never_shortens (db : List SubRow)
    (plan : Option Plan) (gid : Option Int) (pt : PaymentType)
    (now : DateTime) (invite : Option String) (nid : Nat)
    (db' : List SubRow) (link : String) (ex : SubRow)
    (hsel : selectActiveSub db = some ex)
    (_hfull : ex.partPaid = PartPaid.full)
    (hshape : ex.endTs = endDay5Next ex.periodMonth ex.periodYear)
    (hdiff : ¬(ex.periodMonth = now.month ∧ ex.periodYear = now.year))
    (hpast : periodLeb ex.periodMonth ex.periodYear now.month now.year =
      true)
    (hfut : now.ltb ex.endTs = true)
    (hm1 : 1 ≤ now.month) (hm2 : now.month ≤ 12)
    (h : activate_subscription db plan gid pt now invite nid =
      (db', Except.ok link)) :
    computeEnd pt now = computeEnd pt (now.maxDT ex.endTs) ∧
    ∃ r, r ∈ db' ∧ r.id = ex.id ∧ r.periodMonth = now.month ∧
      r.periodYear = now.year ∧ ex.endTs.leb r.endTs = true := by
  have hfut' : now.ltb ⟨(nextMonth ex.periodMonth ex.periodYear).2,
      (nextMonth ex.periodMonth ex.periodYear).1, 5, 23, 59, 59⟩ = true := by
    rw [hshape] at hfut
    exact hfut
  have hupper := ltb_day5_period_le now _ _ hfut'
  obtain ⟨hkm, hky⟩ := period_squeeze ex.periodMonth ex.periodYear
    now.month now.year hm1 hm2 hdiff hpast hupper
  have hend_eq : ex.endTs = ⟨now.year, now.month, 5, 23, 59, 59⟩ := by
    rw [hshape]
    unfold endDay5Next
    rw [← hkm, ← hky]
  obtain ⟨e, pp, hce, hmem⟩ :=
    activate_commit_renewal db plan gid pt now invite nid db' link ex
      hsel hdiff h
  constructor
  · have hmax : now.maxDT ex.endTs = ex.endTs := by
      unfold DateTime.maxDT
      rw [hfut]
      simp
    rw [hmax]
    refine computeEnd_congr pt now ex.endTs ?_ ?_
    · rw [hend_eq]
    · rw [hend_eq]
  · refine ⟨_, hmem, rfl, rfl, rfl, ?_⟩
    show ex.endTs.leb e = true
    rw [hend_eq]
    exact day5_leb_computeEnd pt now e pp hce

/-- The prior-period row of C5's witness: an April 2025 fully-paid row
whose access runs to 5 May 2025, 23:59:59. -/
def c5Row : SubRow :=
  ⟨1, PartPaid.full, 4, 2025, ⟨2025, 5, 5, 23, 59, 59⟩, true, false,
   PaymentType.full⟩

/-- Witness for C5: renewing on 3 May 2025 moves the row's `end_ts`
forward to 5 June 2025 — not before the old 5 May 2025 boundary — and the
`end_ts` computed from "now" equals the one computed from
`max(now, old end_ts)`. -/
theorem claim_C5_witness :
    computeEnd PaymentType.full ⟨2025, 5, 3, 10, 0, 0⟩ =
      computeEnd PaymentType.full
        (DateTime.maxDT ⟨2025, 5, 3, 10, 0, 0⟩ c5Row.endTs) ∧
    ∃ r, r ∈ ([⟨1, PartPaid.full, 5, 2025, ⟨2025, 6, 5, 23, 59, 59⟩, true,
        false, PaymentType.full⟩] : List SubRow) ∧ r.id = c5Row.id ∧
      r.periodMonth = 5 ∧ r.periodYear = 2025 ∧
      c5Row.endTs.leb r.endTs = true :=
  claim_C5_renewal_never_shortens [c5Row] (some ⟨1000, some 5⟩) Option.none
    PaymentType.full ⟨2025, 5, 3, 10, 0, 0⟩ (some "L") 9 _ "L" c5Row
    rfl rfl rfl (by decide) rfl rfl (by decide) (by decide) rfl

/-- C6.  `activate_subscription` is atomic on failure: with no resolvable
target group (no group on the plan and no caller fallback) it returns the
no-group failure, and when credential issuance fails it returns the
issuance failure — in both cases the subscription rows are returned
exactly as given (the source executes no write on `subscriptions` before
either early `return False`). -/
theorem claim_C6_failure_atomicity (db : List SubRow) (plan : Option Plan)
    (gid : Option Int) (pt : PaymentType) (now : DateTime)
    (invite : Option String) (nid : Nat) :
    (∀ p, plan = some p → p.group_id = Option.none → gid = Option.none →
      activate_subscription db plan gid pt now invite nid =
        (db, Except.error ActErr.noGroupConfigured)) ∧
    (invite = Option.none → ∀ p g, plan = some p →
      resolveTargetGroup p.group_id gid = some g →
      activate_subscription db plan gid pt now invite nid =
        (db, Except.error ActErr.credentialIssuanceFailed)) := by
  constructor
  · intro p hp hpg hgid
    subst hp
    subst hgid
    unfold activate_subscription resolveTargetGroup
    dsimp only
    rw [hpg]
  · intro hinv p g hp hg
    subst hp
    subst hinv
    unfold activate_subscription
    dsimp only
    rw [hg]

/-- Witness for C6: both failure modes at concrete inputs, returning the
ledger unchanged. -/
theorem claim_C6_witness :
    activate_subscription
        [⟨1, PartPaid.full, 4, 2025, ⟨2025, 5, 5, 23, 59, 59⟩, true, false,
          PaymentType.full⟩]
        (some ⟨1000, Option.none⟩) Option.none
        PaymentType.full ⟨2025, 5, 3, 10, 0, 0⟩ (some "L") 9 =
      ([⟨1, PartPaid.full, 4, 2025, ⟨2025, 5, 5, 23, 59, 59⟩, true, false,
         PaymentType.full⟩], Except.error ActErr.noGroupConfigured) ∧
    activate_subscription
        [⟨1, PartPaid.full, 4, 2025, ⟨2025, 5, 5, 23, 59, 59⟩, true, false,
          PaymentType.full⟩]
        (some ⟨1000, some 5⟩) Option.none
        PaymentType.full ⟨2025, 5, 3, 10, 0, 0⟩ Option.none 9 =
      ([⟨1, PartPaid.full, 4, 2025, ⟨2025, 5, 5, 23, 59, 59⟩, true, false,
         PaymentType.full⟩], Except.error ActErr.credentialIssuanceFailed) :=
  ⟨(claim_C6_failure_atomicity _ (some ⟨1000, Option.none⟩)
      Option.none PaymentType.full ⟨2025, 5, 3, 10, 0, 0⟩ (some "L") 9).1
      ⟨1000, Option.none⟩ rfl rfl rfl,
   (claim_C6_failure_atomicity _ (some ⟨1000, some 5⟩)
      Option.none PaymentType.full ⟨2025, 5, 3, 10, 0, 0⟩ Option.none 9).2
      rfl ⟨1000, some 5⟩ 5 rfl rfl⟩

/-- A row the day-21 sweep is meant to revoke: active, first half paid
(`payment_type='partial'`, `part_paid='first'`) for the current period
(May 2025). -/
def c7Row : SubRow :=
  ⟨3, PartPaid.first, 5, 2025, ⟨2025, 5, 15, 23, 59, 59⟩, true, false,
   PaymentType.firstHalf⟩

/-- C7 fails on the code (code bug).  The day-21, 00:00 sweep revokes
nothing at all: its SELECT contains a Python `#` comment inside the SQL
string, SQLite rejects the statement (`unrecognized token`), the loop's
blanket `except` swallows the error, and every row — including a
current-period `part_paid='first'` row that matches the claim — stays
active.  Had the statement parsed, the row would have been revoked
(last conjunct). -/
theorem claim_C7_day21_sweep_revokes_nothing :
    hasUnrecognizedHash day21SweepQuery = true ∧
    day21Sweep [c7Row] 5 2025 = [c7Row] ∧
    c7Row.active = true ∧ c7Row.partPaid = PartPaid.first ∧
    c7Row.periodMonth = 5 ∧ c7Row.periodYear = 2025 ∧
    day21Revoke [c7Row] 5 2025 =
      [{ c7Row with active := false, removed := true }] := by
  refine ⟨day21_query_rejected, ?_, rfl, rfl, rfl, rfl, by decide⟩
  unfold day21Sweep
  rw [day21_query_rejected]
  simp

/-- Truncating and floor division agree on non-negative operands (Python's
`int(x / 100)` truncates toward zero; for non-negative exact quotients
this is floor division). -/
lemma tdiv_eq_div_of_nonneg (a b : Int) (ha : 0 ≤ a) (hb : 0 ≤ b) :
    a.tdiv b = a / b := by
  match a, ha, b, hb with
  | Int.ofNat m, _, Int.ofNat n, _ => rfl

/-- A truthy nullable integer is a non-null non-zero value. -/
lemma truthyInt_iff (o : Option Int) :
    truthyInt o = true ↔ ∃ n, o = some n ∧ n ≠ 0 := by
  cases o <;> simp [truthyInt]

/-- C8.  `apply_promo_code` returns `max(0, price − discount)` with
discount `floor(price × percent / 100)` for percent codes and the fixed
amount for fixed codes; the result is never negative and never exceeds
the price; a 10% code on 1000 gives 900 and a fixed-150 code on 1000
gives 850.  (`hp`/`hf` record that stored discounts are non-negative.) -/
theorem claim_C8_apply_promo (price_cents : Int) (promo : PromoRow)
    (hprice : 0 ≤ price_cents)
    (hp : ∀ k, promo.discount_percent = some k → 0 ≤ k)
    (hf : ∀ k, promo.discount_fixed_cents = some k → 0 ≤ k) :
    (∀ k, promo.discount_percent = some k → k ≠ 0 →
      apply_promo_code price_cents promo =
        max 0 (price_cents - price_cents * k / 100)) ∧
    (truthyInt promo.discount_percent = false →
      ∀ k, promo.discount_fixed_cents = some k → k ≠ 0 →
        apply_promo_code price_cents promo = max 0 (price_cents - k)) ∧
    0 ≤ apply_promo_code price_cents promo ∧
    apply_promo_code price_cents promo ≤ price_cents ∧
    apply_promo_code 1000
      ⟨1, "TEN", some 10, Option.none, true, 0, Option.none,
       Option.none⟩ = 900 ∧
    apply_promo_code 1000
      ⟨2, "F150", Option.none, some 150, true, 0, Option.none,
       Option.none⟩ = 850 := by
  refine ⟨?_, ?_, ?_, ?_, by decide, by decide⟩
  · intro k hk hk0
    unfold apply_promo_code
    rw [hk]
    simp only [truthyInt, Option.getD_some, bne_iff_ne, ne_eq, hk0,
      not_false_eq_true, if_true]
    rw [tdiv_eq_div_of_nonneg _ _ (mul_nonneg hprice (hp k hk))
      (by norm_num)]
  · intro hpf k hk hk0
    unfold apply_promo_code
    rw [hpf, hk]
    simp only [truthyInt, Option.getD_some, bne_iff_ne, ne_eq, hk0,
      not_false_eq_true, if_true, Bool.false_eq_true, if_false]
  · unfold apply_promo_code
    split
    · exact le_max_left 0 _
    · split
      · exact le_max_left 0 _
      · exact hprice
  · unfold apply_promo_code
    split
    · next h1 =>
      obtain ⟨k, hk, hk0⟩ := (truthyInt_iff _).mp h1
      rw [hk, Option.getD_some]
      have hd : 0 ≤ (price_cents * k).tdiv 100 := by
        rw [tdiv_eq_div_of_nonneg _ _ (mul_nonneg hprice (hp k hk))
          (by norm_num)]
        exact Int.ediv_nonneg (mul_nonneg hprice (hp k hk)) (by norm_num)
      exact max_le hprice (by omega)
    · split
      · next h1 h2 =>
        obtain ⟨k, hk, hk0⟩ := (truthyInt_iff _).mp h2
        rw [hk, Option.getD_some]
        have hd : 0 ≤ k := hf k hk
        exact max_le hprice (by omega)
      · exact le_refl price_cents

/-- Witness for C8 at a concrete input: price 1000 with the 10% code. -/
theorem claim_C8_witness :
    (∀ k, (some 10 : Option Int) = some k → k ≠ 0 →
      apply_promo_code 1000
        ⟨1, "TEN", some 10, Option.none, true, 0, Option.none,
         Option.none⟩ = max 0 (1000 - 1000 * k / 100)) ∧
    (truthyInt (some 10) = false →
      ∀ k, (Option.none : Option Int) = some k → k ≠ 0 →
        apply_promo_code 1000
          ⟨1, "TEN", some 10, Option.none, true, 0, Option.none,
           Option.none⟩ = max 0 (1000 - k)) ∧
    0 ≤ apply_promo_code 1000
      ⟨1, "TEN", some 10, Option.none, true, 0, Option.none,
       Option.none⟩ ∧
    apply_promo_code 1000
      ⟨1, "TEN", some 10, Option.none, true, 0, Option.none,
       Option.none⟩ ≤ 1000 ∧
    apply_promo_code 1000
      ⟨1, "TEN", some 10, Option.none, true, 0, Option.none,
       Option.none⟩ = 900 ∧
    apply_promo_code 1000
      ⟨2, "F150", Option.none, some 150, true, 0, Option.none,
       Option.none⟩ = 850 :=
  claim_C8_apply_promo 1000
    ⟨1, "TEN", some 10, Option.none, true, 0, Option.none, Option.none⟩
    (by norm_num)
    (by intro k hk; cases hk; norm_num)
    (by intro k hk; cases hk)

/-- C9's counterexample.  The store does not enforce
at-most-one-redemption-per-user: `promo_usage` has no unique constraint
and the recording paths insert unconditionally, so recording the
completion of two payments that both carried promo 1 for user 7 leaves
two (1, 7) usage rows. -/
theorem claim_C9_counterexample :
    countUsage (record_promo_usage (record_promo_usage [] 1 7) 1 7) 1 7 =
      2 := by
  decide

/-- C9 amended.  At-most-one-redemption-per-user is enforced only at
validation time: `can_use_promo_code` rejects a pair already present in
`promo_usage` before any other check.  The recording paths themselves are
unconditional inserts — each recording adds one more row for the pair —
so a pair validated once but paid twice (two pending checkouts, or two
approved manual payments) is recorded twice. -/
theorem claim_C9_amended_validation_only (usage : List (Nat × Nat))
    (promo : Option PromoRow) (pid uid : Nat) (now_ts : Int)
    (hused : usage.contains (pid, uid) = true) :
    can_use_promo_code usage promo pid uid now_ts =
      PromoCheck.alreadyUsed ∧
    countUsage (record_promo_usage usage pid uid) pid uid =
      countUsage usage pid uid + 1 := by
  constructor
  · unfold can_use_promo_code
    rw [hused]
    simp
  · unfold countUsage record_promo_usage
    simp

/-- Witness for the amended C9: user 7 already recorded for promo 1 is
rejected at validation, and a further recording appends a second row. -/
theorem claim_C9_amended_witness :
    can_use_promo_code [(1, 7)] Option.none 1 7 0 =
      PromoCheck.alreadyUsed ∧
    countUsage (record_promo_usage [(1, 7)] 1 7) 1 7 =
      countUsage [(1, 7)] 1 7 + 1 :=
  claim_C9_amended_validation_only [(1, 7)] Option.none 1 7 0 (by decide)

end CtproBot
